import Mathlib

/-!
Verification of the Ask CFPB legacy search-facet redirector and link
annotator (`cfgov/ask_cfpb/views.py`) against its specification.

The embedding models Python strings as Lean `String`s manipulated through
char-list primitives that mirror the Python string methods used by the
source (`in`, `str.replace`, `str.strip`), the Django 3.2
`django.template.defaultfilters.slugify` filter, and the request-level
control flow of `redirect_ask_search` and `annotate_links`.
-/

namespace AskCfpb

/-- The six characters Python's `str.strip()` removes, which coincide with
the characters matched by the regex class `\s` on ASCII text. -/
def pyWhitespace (c : Char) : Bool :=
  c == ' ' || c == '\t' || c == '\n' || c == '\x0d' || c == '\x0b' || c == '\x0c'

/-- Substring containment on char lists: `containsSub needle hay` is true
iff `needle` occurs contiguously anywhere in `hay`.  Mirrors Python's
`needle in hay` for strings. -/
def containsSub (needle : List Char) : List Char → Bool
  | [] => needle.isEmpty
  | c :: rest => needle.isPrefixOf (c :: rest) || containsSub needle rest

/-- Python's `needle in hay` operator on strings. -/
def pyIn (needle hay : String) : Bool :=
  containsSub needle.data hay.data

/-- Worker for `pyReplace`: replaces every leftmost non-overlapping
occurrence of `pat` by `repl`, scanning left to right.  The `skip`
counter carries the number of already-matched characters still to be
consumed after a match. -/
def replGo (pat repl : List Char) : Nat → List Char → List Char
  | _, [] => []
  | Nat.succ skip, _ :: rest => replGo pat repl skip rest
  | 0, c :: rest =>
    if pat.isPrefixOf (c :: rest) && !pat.isEmpty then
      repl ++ replGo pat repl (pat.length - 1) rest
    else
      c :: replGo pat repl 0 rest

/-- Python's `s.replace(pat, repl)`: replace all leftmost non-overlapping
occurrences (the source never calls it with an empty pattern). -/
def pyReplace (s pat repl : String) : String :=
  ⟨replGo pat.data repl.data 0 s.data⟩

/-- Strip leading and trailing Python whitespace from a char list. -/
def pyStripChars (cs : List Char) : List Char :=
  ((cs.dropWhile pyWhitespace).reverse.dropWhile pyWhitespace).reverse

/-- Python's `s.strip()`. -/
def pyStrip (s : String) : String :=
  ⟨pyStripChars s.data⟩

/-- ASCII character test, modelling `str.encode('ascii', 'ignore')`. -/
def isAsciiChar (c : Char) : Bool :=
  decide (c.toNat < 128)

/-- The regex class `\w` restricted to ASCII: letters, digits, underscore. -/
def isWordChar (c : Char) : Bool :=
  c.isAlphanum || c == '_'

/-- Collapse every maximal run of hyphens and whitespace into a single
hyphen: the final `re.sub(r'[-\s]+', '-', value)` step of Django slugify. -/
def collapseDashSpace : List Char → List Char
  | [] => []
  | [c] => if pyWhitespace c || c == '-' then ['-'] else [c]
  | c :: d :: rest =>
    if pyWhitespace c || c == '-' then
      if pyWhitespace d || d == '-' then collapseDashSpace (d :: rest)
      else '-' :: collapseDashSpace (d :: rest)
    else c :: collapseDashSpace (d :: rest)

/-- Modelled from Django 3.2 `django.template.defaultfilters.slugify`
(an external library the source imports): drop non-ASCII characters
(the `NFKD`-decomposition of non-ASCII input that precedes the drop is
not modelled; the source feeds it query-string text), lowercase, delete
characters outside `[\w\s-]`, strip whitespace, and collapse runs of
hyphens and whitespace to single hyphens.  Django 3.2 does not strip
leading or trailing hyphens or underscores (that was added in 4.0). -/
def slugifyChars (cs : List Char) : List Char :=
  collapseDashSpace (pyStripChars
    (((cs.filter isAsciiChar).map Char.toLower).filter
      (fun c => isWordChar c || pyWhitespace c || c == '-')))

/-- Django's `slugify` template filter on strings (Django 3.2 behavior). -/
def slugify (s : String) : String :=
  ⟨slugifyChars s.data⟩

/-- The facet marker bound to the local `category_facet` in
`redirect_ask_search`. -/
def category_facet : String := "category_exact:"

/-- The facet marker bound to the local `audience_facet`. -/
def audience_facet : String := "audience_exact:"

/-- The facet marker bound to the local `tag_facet`. -/
def tag_facet : String := "tag_exact:"

/-- The outcome of `redirect_ask_search`.  Every constructor except
`notFound` is emitted by the source as a permanent (HTTP 301) redirect;
`notFound` is the `raise Http404` at the end of the view.
`toSearch none` is the redirect to the bare `/ask-cfpb/search/` page. -/
inductive RedirectOutcome where
  | toSearch (q : Option String)
  | toCategory (slug : String) (language : String)
  | toAudience (slug : String)
  | toTag (tag : String) (language : String)
  | notFound
deriving DecidableEq

/-- True exactly on category-redirect outcomes. -/
def RedirectOutcome.isCategory : RedirectOutcome → Bool
  | .toCategory _ _ => true
  | _ => false

/-- True exactly on tag-redirect outcomes. -/
def RedirectOutcome.isTag : RedirectOutcome → Bool
  | .toTag _ _ => true
  | _ => false

/-- True exactly on audience-redirect outcomes. -/
def RedirectOutcome.isAudience : RedirectOutcome → Bool
  | .toAudience _ => true
  | _ => false

/-- The URL each outcome redirects to (with HTTP 301), or `none` for the
404, exactly as the `redirect(...)` calls and the nested helpers
`redirect_to_category`, `redirect_to_audience` and `redirect_to_tag`
build them in the source. -/
def outcomeUrl : RedirectOutcome → Option String
  | .toSearch none => some "/ask-cfpb/search/"
  | .toSearch (some q) => some ("/ask-cfpb/search/?q=" ++ q)
  | .toCategory slug language =>
    if language = "es" then some ("/es/obtener-respuestas/categoria-" ++ slug ++ "/")
    else some ("/ask-cfpb/category-" ++ slug ++ "/")
  | .toAudience audience => some ("/ask-cfpb/audience-" ++ audience ++ "/")
  | .toTag tag language =>
    if language = "es" then
      some ("/es/obtener-respuestas/buscar-por-etiqueta/" ++ tag ++ "/")
    else some ("/ask-cfpb/search-by-tag/" ++ tag ++ "/")
  | .notFound => none

/-- One of the three `for facet in facets:` loops of the source: return
the value (the facet string with every occurrence of `marker` removed)
of the first facet that contains `marker` and whose value is non-empty;
facets containing the marker with an empty value are skipped and the
scan continues. -/
def findFacet (marker : String) : List String → Option String
  | [] => none
  | f :: rest =>
    if pyIn marker f then
      let v := pyReplace f marker ""
      if v ≠ "" then some v else findFacet marker rest
    else findFacet marker rest

/-- The `else` branch of `redirect_ask_search` (no truthy `q` parameter):
bail out to the bare search redirect when the facet list is empty or its
first element is the empty string, then run the category, audience and
tag scans in priority order, and finally `raise Http404`. -/
def redirectFacets (facets : List String) (language : String) : RedirectOutcome :=
  match facets with
  | [] => RedirectOutcome.toSearch none
  | f0 :: _ =>
    if f0 = "" then RedirectOutcome.toSearch none
    else
      match findFacet category_facet facets with
      | some category => RedirectOutcome.toCategory (slugify category) language
      | none =>
        match findFacet audience_facet facets with
        | some audience_raw =>
          RedirectOutcome.toAudience (slugify (pyReplace audience_raw "+" "-"))
        | none =>
          match findFacet tag_facet facets with
          | some raw_tag =>
            RedirectOutcome.toTag
              (pyReplace (pyReplace (pyReplace raw_tag " " "_") "%20" "_") "+" "_")
              language
          | none => RedirectOutcome.notFound

/-- Python truthiness of `request.GET.get('q')`: the key is present with
a non-empty value. -/
def pyTruthy : Option String → Bool
  | none => false
  | some s => !(s == "")

/-- The view `redirect_ask_search`, as a function of the `q` query
parameter (`none` when absent), the `selected_facets` list, and the
`language` argument. -/
def redirect_ask_search (q : Option String) (facets : List String)
    (language : String) : RedirectOutcome :=
  match q with
  | some s =>
    if s ≠ "" then
      let querystring := pyStrip s
      if querystring = "" then RedirectOutcome.toSearch none
      else RedirectOutcome.toSearch (some querystring)
    else redirectFacets facets language
  | none => redirectFacets facets language

/-- A node of the parsed HTML document.  Parsing the raw answer text is
delegated by the source to BeautifulSoup with the lxml parser (an
external library); the embedding starts from the parsed tree, which is a
forest of text nodes and elements carrying a tag name and an attribute
list. -/
inductive HtmlNode where
  | text (s : String)
  | elem (tag : String) (attrs : List (String × String)) (children : List HtmlNode)

/-- BeautifulSoup's `link.get('href')` followed by the source's
truthiness test `if not link.get('href'): continue`: the anchor
qualifies iff an `href` attribute is present with a non-empty value. -/
def hrefTruthy (attrs : List (String × String)) : Bool :=
  match List.lookup "href" attrs with
  | some v => !(v == "")
  | none => false

/-- Modelled from the spec: "resolve the destination against `base_url`
using standard relative-URL resolution".  The source delegates to
`urllib.parse.urljoin` (an external library); this model covers
already-absolute URLs, scheme-relative, host-relative, and path-relative
references, without dot-segment normalization. -/
def resolveUrl (base url : String) : String :=
  if url = "" then base
  else if pyIn "://" url then url
  else if "//".data.isPrefixOf url.data then
    ⟨(base.data.takeWhile (fun c => c ≠ ':')) ++ (':' :: url.data)⟩
  else
    let afterScheme :=
      if pyIn "://" base then
        (base.data.drop ((base.data.takeWhile (fun c => c ≠ ':')).length + 3))
      else base.data
    let origin := base.data.take
      ((base.data.length - afterScheme.length) +
        (afterScheme.takeWhile (fun c => c ≠ '/')).length)
    if url.data.head? = some '/' then ⟨origin ++ url.data⟩
    else
      let path := afterScheme.dropWhile (fun c => c ≠ '/')
      let dir := (path.reverse.dropWhile (fun c => c ≠ '/')).reverse
      ⟨origin ++ (if dir.isEmpty then ['/'] else dir) ++ url.data⟩

/-- The annotation loop of `annotate_links` over the parsed tree:
`links = soup.findAll('a')` yields the anchors in document order
(preorder), and for each anchor with a truthy `href` the loop appends
`(index, urljoin(root, href))` to the footnotes, inserts a
`<sup>index</sup>` element immediately after the anchor among its
parent's children, and increments the index (which starts at 1).
Returns the rewritten forest, the next index, and the footnotes. -/
def annotateNodes (root : String) : Nat → List HtmlNode → List HtmlNode × Nat × List (Nat × String)
  | i, [] => ([], i, [])
  | i, HtmlNode.text s :: rest =>
    (HtmlNode.text s :: (annotateNodes root i rest).1, (annotateNodes root i rest).2)
  | i, HtmlNode.elem tag attrs children :: rest =>
    if tag == "a" && hrefTruthy attrs then
      (HtmlNode.elem tag attrs (annotateNodes root (i + 1) children).1 ::
         HtmlNode.elem "sup" [] [HtmlNode.text (toString i)] ::
         (annotateNodes root (annotateNodes root (i + 1) children).2.1 rest).1,
       (annotateNodes root (annotateNodes root (i + 1) children).2.1 rest).2.1,
       (i, resolveUrl root ((List.lookup "href" attrs).getD "")) ::
         (annotateNodes root (i + 1) children).2.2 ++
         (annotateNodes root (annotateNodes root (i + 1) children).2.1 rest).2.2)
    else
      (HtmlNode.elem tag attrs (annotateNodes root i children).1 ::
         (annotateNodes root (annotateNodes root i children).2.1 rest).1,
       (annotateNodes root (annotateNodes root i children).2.1 rest).2.1,
       (annotateNodes root i children).2.2 ++
         (annotateNodes root (annotateNodes root i children).2.1 rest).2.2)

/-- The view helper `annotate_links`: fails with the `RuntimeError`
message when no default wagtail site is configured (`site` is the
default site's `root_url`, or `none` when `Site.objects.get`, an
external collaborator, raises `Site.DoesNotExist`); otherwise annotates
the document and returns it with the footnote list. -/
def annotate_links (site : Option String) (doc : List HtmlNode) :
    Except String (List HtmlNode × List (Nat × String)) :=
  match site with
  | none => Except.error "no default wagtail site configured"
  | some root =>
    let r := annotateNodes root 1 doc
    Except.ok (r.1, r.2.2)

/-- Specification-side enumeration: the `href` values of the anchor
elements that have a present, non-empty `href` attribute, in document
order (preorder). -/
def anchorHrefs : List HtmlNode → List String
  | [] => []
  | HtmlNode.text _ :: rest => anchorHrefs rest
  | HtmlNode.elem tag attrs children :: rest =>
    (if tag == "a" && hrefTruthy attrs then [(List.lookup "href" attrs).getD ""] else [])
      ++ anchorHrefs children ++ anchorHrefs rest

/-- Specification-side numbering: pair the elements of a list with
consecutive indices starting at `i`, applying `g` to each element. -/
def numberFrom (g : String → String) : Nat → List String → List (Nat × String)
  | _, [] => []
  | i, s :: rest => (i, g s) :: numberFrom g (i + 1) rest

/-- When the `q` parameter is absent or empty (Python-falsy), the view
takes its `else` branch and resolves the facets. -/
theorem redirect_eq_facets (q : Option String) (facets : List String) (lang : String)
    (hq : pyTruthy q = false) :
    redirect_ask_search q facets lang = redirectFacets facets lang := by
  cases q with
  | none => rfl
  | some s =>
    have hs : s = "" := by simpa [pyTruthy] using hq
    subst hs
    simp [redirect_ask_search]

/-- A facet scan skips a leading facet whose value is empty whenever the
marker occurs in it (and also one the marker does not occur in). -/
theorem findFacet_cons_of_empty (m f : String) (fs : List String)
    (h : pyIn m f = true → pyReplace f m "" = "") :
    findFacet m (f :: fs) = findFacet m fs := by
  by_cases hin : pyIn m f
  · simp [findFacet, hin, h hin]
  · simp [findFacet, hin]

/-- A facet scan succeeds whenever some list element contains the marker
with a non-empty value. -/
theorem findFacet_isSome_of_mem (m f : String) (fs : List String) (hf : f ∈ fs)
    (h1 : pyIn m f = true) (h2 : pyReplace f m "" ≠ "") :
    (findFacet m fs).isSome = true := by
  induction fs with
  | nil => cases hf
  | cons g rest ih =>
    by_cases hin : pyIn m g
    · by_cases hv : pyReplace g m "" = ""
      · rcases List.mem_cons.mp hf with he | hm
        · exact absurd (he ▸ hv) h2
        · rw [findFacet_cons_of_empty m g rest (fun _ => hv)]
          exact ih hm
      · simp [findFacet, hin, hv]
    · rcases List.mem_cons.mp hf with he | hm
      · exact absurd (he ▸ h1) hin
      · rw [findFacet_cons_of_empty m g rest (fun hc => absurd hc hin)]
        exact ih hm

/-- C2 (counterexample): `resolve_redirect("", [], "en")` does not yield
the NotFound outcome; the source redirects to the bare search page
(`redirect('/ask-cfpb/search/', permanent=True)`) when the facet list is
empty, and only raises `Http404` after all three facet scans fail. -/
theorem notFound_claim_counterexample :
    redirect_ask_search (some "") [] "en" = RedirectOutcome.toSearch none ∧
    redirect_ask_search (some "") [] "en" ≠ RedirectOutcome.notFound := by
  decide

/-- C2 (amended): with no query text, the outcome is NotFound exactly
when the facet list is non-empty, its first element is non-empty, and
none of the three facet scans found a facet with a non-empty value;
when the facet list is empty or its first element is empty the outcome
is the bare search redirect, not a 404. -/
theorem notFound_characterization (q : Option String) (facets : List String) (lang : String)
    (hq : pyTruthy q = false) :
    (redirect_ask_search q facets lang = RedirectOutcome.notFound ↔
      facets ≠ [] ∧ facets.head? ≠ some "" ∧
      findFacet category_facet facets = none ∧
      findFacet audience_facet facets = none ∧
      findFacet tag_facet facets = none) ∧
    ((facets = [] ∨ facets.head? = some "") →
      redirect_ask_search q facets lang = RedirectOutcome.toSearch none) := by
  rw [redirect_eq_facets q facets lang hq]
  cases facets with
  | nil => simp [redirectFacets]
  | cons f0 rest =>
    by_cases h0 : f0 = ""
    · subst h0
      simp [redirectFacets]
    · refine ⟨?_, ?_⟩
      · cases hc : findFacet category_facet (f0 :: rest) with
        | some v => simp [redirectFacets, h0, hc]
        | none =>
          cases ha : findFacet audience_facet (f0 :: rest) with
          | some v => simp [redirectFacets, h0, hc, ha]
          | none =>
            cases ht : findFacet tag_facet (f0 :: rest) with
            | some v => simp [redirectFacets, h0, hc, ha, ht]
            | none => simp [redirectFacets, h0, hc, ha, ht]
      · intro h
        rcases h with h | h
        · exact absurd h (by simp)
        · simp only [List.head?] at h
          exact absurd (Option.some.inj h) h0

/-- C2 witness: a facet list with one unrecognizable facet yields the
404, and an empty facet list yields the bare search redirect. -/
theorem notFound_characterization_witness :
    (redirect_ask_search (some "") ["foo"] "en" = RedirectOutcome.notFound ↔
      ["foo"] ≠ ([] : List String) ∧ (["foo"] : List String).head? ≠ some "" ∧
      findFacet category_facet ["foo"] = none ∧
      findFacet audience_facet ["foo"] = none ∧
      findFacet tag_facet ["foo"] = none) ∧
    ((["foo"] : List String) = [] ∨ (["foo"] : List String).head? = some "" →
      redirect_ask_search (some "") ["foo"] "en" = RedirectOutcome.toSearch none) :=
  notFound_characterization (some "") ["foo"] "en" (by decide)

/-- C3 (counterexample): a facet list whose first element is the empty
string short-circuits to the bare search redirect even though a facet
with a non-empty category value and one with a non-empty tag value are
both present, so the claimed universally-quantified priority statement
fails as stated. -/
theorem category_priority_counterexample :
    redirect_ask_search none ["", "category_exact:a", "tag_exact:b"] "en" =
      RedirectOutcome.toSearch none ∧
    (redirect_ask_search none ["", "category_exact:a", "tag_exact:b"] "en").isCategory
      = false := by
  decide

/-- C3 (amended): with no query text and a non-empty first facet
element, whenever a facet with a non-empty category value and a facet
with a non-empty tag value are both present — in either order — the
outcome is a category redirect. -/
theorem category_priority_over_tag (q : Option String) (facets : List String) (lang : String)
    (hq : pyTruthy q = false) (h0 : facets.head? ≠ some "")
    (hcat : ∃ f ∈ facets, pyIn category_facet f = true ∧ pyReplace f category_facet "" ≠ "")
    (_htag : ∃ f ∈ facets, pyIn tag_facet f = true ∧ pyReplace f tag_facet "" ≠ "") :
    (redirect_ask_search q facets lang).isCategory = true := by
  rw [redirect_eq_facets q facets lang hq]
  obtain ⟨f, hf, h1, h2⟩ := hcat
  have hsome := findFacet_isSome_of_mem category_facet f facets hf h1 h2
  obtain ⟨v, hv⟩ := Option.isSome_iff_exists.mp hsome
  cases facets with
  | nil => cases hf
  | cons f0 rest =>
    have h0' : f0 ≠ "" := by simpa using h0
    simp [redirectFacets, h0', hv, RedirectOutcome.isCategory]

/-- C3 witness: the tag facet listed before the category facet still
produces the category redirect. -/
theorem category_priority_over_tag_witness :
    (redirect_ask_search none ["tag_exact:b", "category_exact:a"] "en").isCategory = true :=
  category_priority_over_tag none ["tag_exact:b", "category_exact:a"] "en"
    (by decide) (by decide)
    ⟨"category_exact:a", by decide, by decide, by decide⟩
    ⟨"tag_exact:b", by decide, by decide, by decide⟩

/-- C4 (counterexample): the first category facet has an empty value,
yet the later non-empty category facet is consulted and determines a
category redirect, contradicting the claim that for category facets the
first occurrence is taken regardless of emptiness. -/
theorem first_occurrence_counterexample :
    redirect_ask_search none ["category_exact:", "category_exact:Credit Cards"] "en" =
      RedirectOutcome.toCategory "credit-cards" "en" ∧
    redirect_ask_search none ["category_exact:", "category_exact:Credit Cards"] "en" ≠
      RedirectOutcome.notFound := by
  decide

/-- C4 (amended): all three facet types behave identically — an
occurrence whose value is empty after marker removal is skipped and
never affects the outcome: prepending a facet consisting of a bare type
marker leaves the result unchanged, for each of the three types; the
first occurrence with a non-empty value of the winning type decides. -/
theorem empty_facet_occurrence_transparent (q : Option String) (facets : List String)
    (lang : String) (hq : pyTruthy q = false) (hne : facets ≠ [])
    (h0 : facets.head? ≠ some "") :
    redirect_ask_search q (category_facet :: facets) lang =
      redirect_ask_search q facets lang ∧
    redirect_ask_search q (audience_facet :: facets) lang =
      redirect_ask_search q facets lang ∧
    redirect_ask_search q (tag_facet :: facets) lang =
      redirect_ask_search q facets lang := by
  rw [redirect_eq_facets q facets lang hq,
    redirect_eq_facets q (category_facet :: facets) lang hq,
    redirect_eq_facets q (audience_facet :: facets) lang hq,
    redirect_eq_facets q (tag_facet :: facets) lang hq]
  cases facets with
  | nil => exact absurd rfl hne
  | cons f0 rest =>
    have h0' : f0 ≠ "" := by simpa using h0
    refine ⟨?_, ?_, ?_⟩
    · have e1 := findFacet_cons_of_empty category_facet category_facet (f0 :: rest)
        (fun _ => by decide)
      have e2 := findFacet_cons_of_empty audience_facet category_facet (f0 :: rest)
        (fun hc => absurd hc (by decide))
      have e3 := findFacet_cons_of_empty tag_facet category_facet (f0 :: rest)
        (fun hc => absurd hc (by decide))
      simp only [redirectFacets, e1, e2, e3]
      rw [if_neg (by decide : ¬(category_facet = "")), if_neg h0']
    · have e1 := findFacet_cons_of_empty category_facet audience_facet (f0 :: rest)
        (fun hc => absurd hc (by decide))
      have e2 := findFacet_cons_of_empty audience_facet audience_facet (f0 :: rest)
        (fun _ => by decide)
      have e3 := findFacet_cons_of_empty tag_facet audience_facet (f0 :: rest)
        (fun hc => absurd hc (by decide))
      simp only [redirectFacets, e1, e2, e3]
      rw [if_neg (by decide : ¬(audience_facet = "")), if_neg h0']
    · have e1 := findFacet_cons_of_empty category_facet tag_facet (f0 :: rest)
        (fun hc => absurd hc (by decide))
      have e2 := findFacet_cons_of_empty audience_facet tag_facet (f0 :: rest)
        (fun hc => absurd hc (by decide))
      have e3 := findFacet_cons_of_empty tag_facet tag_facet (f0 :: rest)
        (fun _ => by decide)
      simp only [redirectFacets, e1, e2, e3]
      rw [if_neg (by decide : ¬(tag_facet = "")), if_neg h0']

/-- C4 witness: prepending a bare marker of each type in front of a tag
facet does not change the tag redirect. -/
theorem empty_facet_occurrence_transparent_witness :
    redirect_ask_search none (category_facet :: ["tag_exact:b"]) "en" =
      redirect_ask_search none ["tag_exact:b"] "en" ∧
    redirect_ask_search none (audience_facet :: ["tag_exact:b"]) "en" =
      redirect_ask_search none ["tag_exact:b"] "en" ∧
    redirect_ask_search none (tag_facet :: ["tag_exact:b"]) "en" =
      redirect_ask_search none ["tag_exact:b"] "en" :=
  empty_facet_occurrence_transparent none ["tag_exact:b"] "en"
    (by decide) (by decide) (by decide)

/-- C5 (counterexample): a present, non-blank query with surrounding
whitespace is not attached verbatim — the source strips it first, so the
outcome differs from a search redirect carrying the query text itself.
-/
theorem query_text_counterexample :
    redirect_ask_search (some " a ") [] "en" = RedirectOutcome.toSearch (some "a") ∧
    redirect_ask_search (some " a ") [] "en" ≠ RedirectOutcome.toSearch (some " a ") := by
  decide

/-- C5 (amended): for every facet list and language, when the query text
is present and non-empty, the outcome is a permanent redirect to the
canonical search page carrying the whitespace-stripped query if that is
non-blank, and to the bare canonical search page if the query strips to
blank; the attached search URLs are as in the source templates. -/
theorem query_text_redirect (s : String) (facets : List String) (lang : String)
    (hs : s ≠ "") :
    redirect_ask_search (some s) facets lang =
      (if pyStrip s = "" then RedirectOutcome.toSearch none
       else RedirectOutcome.toSearch (some (pyStrip s))) ∧
    outcomeUrl (RedirectOutcome.toSearch (some (pyStrip s))) =
      some ("/ask-cfpb/search/?q=" ++ pyStrip s) ∧
    outcomeUrl (RedirectOutcome.toSearch none) = some "/ask-cfpb/search/" := by
  refine ⟨?_, rfl, rfl⟩
  simp only [redirect_ask_search, if_pos hs]

/-- C5 witness: `resolve_redirect("rate limits", [], "en")` redirects to
the search page with query `rate limits`. -/
theorem query_text_redirect_witness :
    redirect_ask_search (some "rate limits") [] "en" =
      (if pyStrip "rate limits" = "" then RedirectOutcome.toSearch none
       else RedirectOutcome.toSearch (some (pyStrip "rate limits"))) ∧
    outcomeUrl (RedirectOutcome.toSearch (some (pyStrip "rate limits"))) =
      some ("/ask-cfpb/search/?q=" ++ pyStrip "rate limits") ∧
    outcomeUrl (RedirectOutcome.toSearch none) = some "/ask-cfpb/search/" :=
  query_text_redirect "rate limits" [] "en" (by decide)

/-- C6 (counterexample): with no query text, no category or audience
facet, and a tag facet with a non-empty value, the claim's universally
quantified statement still fails when the first facet element is the
empty string: the source bails out to the bare search redirect before
any facet scan. -/
theorem tag_facet_counterexample :
    redirect_ask_search none ["", "tag_exact:x"] "es" = RedirectOutcome.toSearch none ∧
    (redirect_ask_search none ["", "tag_exact:x"] "es").isTag = false := by
  decide

/-- C6 (amended): with no query text, a non-empty first facet element,
and category and audience scans both failing, the first tag facet with a
non-empty value determines a permanent redirect whose tag segment is the
raw value with every space, every literal `%20`, and every `+` replaced
by underscores, substituted into the English or Spanish tag URL template
according to the language. -/
theorem tag_facet_redirect (q : Option String) (facets : List String) (lang v : String)
    (hq : pyTruthy q = false) (h0 : facets.head? ≠ some "")
    (hcat : findFacet category_facet facets = none)
    (haud : findFacet audience_facet facets = none)
    (htag : findFacet tag_facet facets = some v) :
    redirect_ask_search q facets lang =
      RedirectOutcome.toTag
        (pyReplace (pyReplace (pyReplace v " " "_") "%20" "_") "+" "_") lang ∧
    outcomeUrl (redirect_ask_search q facets lang) =
      some ((if lang = "es" then "/es/obtener-respuestas/buscar-por-etiqueta/"
             else "/ask-cfpb/search-by-tag/")
        ++ pyReplace (pyReplace (pyReplace v " " "_") "%20" "_") "+" "_" ++ "/") := by
  rw [redirect_eq_facets q facets lang hq]
  cases facets with
  | nil => simp [findFacet] at htag
  | cons f0 rest =>
    have h0' : f0 ≠ "" := by simpa using h0
    have he : redirectFacets (f0 :: rest) lang =
        RedirectOutcome.toTag
          (pyReplace (pyReplace (pyReplace v " " "_") "%20" "_") "+" "_") lang := by
      simp [redirectFacets, h0', hcat, haud, htag]
    refine ⟨he, ?_⟩
    rw [he]
    by_cases hl : lang = "es" <;> simp [outcomeUrl, hl]

/-- C6 witness: `resolve_redirect("", ["tag_exact:pay day loan"], "es")`
redirects to `/es/obtener-respuestas/buscar-por-etiqueta/pay_day_loan/`.
-/
theorem tag_facet_redirect_witness :
    redirect_ask_search none ["tag_exact:pay day loan"] "es" =
      RedirectOutcome.toTag
        (pyReplace (pyReplace (pyReplace "pay day loan" " " "_") "%20" "_") "+" "_") "es" ∧
    outcomeUrl (redirect_ask_search none ["tag_exact:pay day loan"] "es") =
      some ((if "es" = "es" then "/es/obtener-respuestas/buscar-por-etiqueta/"
             else "/ask-cfpb/search-by-tag/")
        ++ pyReplace (pyReplace (pyReplace "pay day loan" " " "_") "%20" "_") "+" "_" ++ "/") :=
  tag_facet_redirect none ["tag_exact:pay day loan"] "es" "pay day loan"
    (by decide) (by decide) (by decide) (by decide) (by decide)

/-- C6 (path form): the witness tag redirect renders exactly the path
the spec displays. -/
theorem tag_facet_redirect_path :
    outcomeUrl (redirect_ask_search none ["tag_exact:pay day loan"] "es") =
      some "/es/obtener-respuestas/buscar-por-etiqueta/pay_day_loan/" := by
  decide

/-- C7 (counterexample): the source replaces `+` by a hyphen, not a
space, before slugifying the audience value, and Django 3.2 slugify
keeps a leading hyphen but strips a leading space, so on the value `+x`
the outcome differs from the claim's prediction. -/
theorem audience_facet_counterexample :
    redirect_ask_search none ["audience_exact:+x"] "en" = RedirectOutcome.toAudience "-x" ∧
    redirect_ask_search none ["audience_exact:+x"] "en" ≠
      RedirectOutcome.toAudience (slugify (pyReplace "+x" "+" " ")) ∧
    slugify (pyReplace "+x" "+" " ") = "x" := by
  decide

/-- C7 (amended): with no query text, a non-empty first facet element,
and a failing category scan, the first audience facet with a non-empty
value determines a permanent redirect to the English-only audience URL
(the requested language is ignored), where `+` characters in the raw
value are replaced by hyphens before slugifying. -/
theorem audience_facet_redirect (q : Option String) (facets : List String) (v : String)
    (hq : pyTruthy q = false) (h0 : facets.head? ≠ some "")
    (hcat : findFacet category_facet facets = none)
    (haud : findFacet audience_facet facets = some v) :
    ∀ lang,
      redirect_ask_search q facets lang =
        RedirectOutcome.toAudience (slugify (pyReplace v "+" "-")) ∧
      outcomeUrl (redirect_ask_search q facets lang) =
        some ("/ask-cfpb/audience-" ++ slugify (pyReplace v "+" "-") ++ "/") := by
  intro lang
  rw [redirect_eq_facets q facets lang hq]
  cases facets with
  | nil => simp [findFacet] at haud
  | cons f0 rest =>
    have h0' : f0 ≠ "" := by simpa using h0
    have he : redirectFacets (f0 :: rest) lang =
        RedirectOutcome.toAudience (slugify (pyReplace v "+" "-")) := by
      simp [redirectFacets, h0', hcat, haud]
    refine ⟨he, ?_⟩
    rw [he]
    rfl

/-- C7 witness: the spec's example —
`resolve_redirect("", ["audience_exact:service+members", "category_exact:"], "en")`
falls through the empty category facet and redirects to the audience
page for slug `service-members`. -/
theorem audience_facet_redirect_witness :
    redirect_ask_search none ["audience_exact:service+members", "category_exact:"] "en" =
      RedirectOutcome.toAudience (slugify (pyReplace "service+members" "+" "-")) ∧
    outcomeUrl
        (redirect_ask_search none ["audience_exact:service+members", "category_exact:"] "en") =
      some ("/ask-cfpb/audience-" ++ slugify (pyReplace "service+members" "+" "-") ++ "/") :=
  audience_facet_redirect none ["audience_exact:service+members", "category_exact:"]
    "service+members" (by decide) (by decide) (by decide) (by decide) "en"

/-- C10: facet-type recognition is by substring containment — a facet is
treated as a category (resp. audience, tag) facet whenever the marker
occurs anywhere in the string — and the value redirected on is the facet
string with every occurrence of the marker removed; scans run in
category, audience, tag priority order. -/
theorem facet_marker_containment (f lang : String) :
    (pyIn category_facet f = true → pyReplace f category_facet "" ≠ "" →
      redirect_ask_search none [f] lang =
        RedirectOutcome.toCategory (slugify (pyReplace f category_facet "")) lang) ∧
    (pyIn category_facet f = false → pyIn audience_facet f = true →
      pyReplace f audience_facet "" ≠ "" →
      redirect_ask_search none [f] lang =
        RedirectOutcome.toAudience
          (slugify (pyReplace (pyReplace f audience_facet "") "+" "-"))) ∧
    (pyIn category_facet f = false → pyIn audience_facet f = false →
      pyIn tag_facet f = true → pyReplace f tag_facet "" ≠ "" →
      redirect_ask_search none [f] lang =
        RedirectOutcome.toTag
          (pyReplace (pyReplace (pyReplace (pyReplace f tag_facet "") " " "_") "%20" "_")
            "+" "_") lang) := by
  have hne : ∀ m : String, m.data ≠ [] → pyIn m f = true → f ≠ "" := by
    intro m hm hin hf
    subst hf
    simp [pyIn, containsSub, List.isEmpty_iff] at hin
    exact hm hin
  refine ⟨?_, ?_, ?_⟩
  · intro h1 h2
    have hf : f ≠ "" := hne category_facet (by decide) h1
    show redirectFacets [f] lang = _
    simp [redirectFacets, hf, findFacet, h1, h2]
  · intro hc h1 h2
    have hf : f ≠ "" := hne audience_facet (by decide) h1
    show redirectFacets [f] lang = _
    simp [redirectFacets, hf, findFacet, hc, h1, h2]
  · intro hc ha h1 h2
    have hf : f ≠ "" := hne tag_facet (by decide) h1
    show redirectFacets [f] lang = _
    simp [redirectFacets, hf, findFacet, hc, ha, h1, h2]

/-- C10 witness: a facet whose marker occurs twice, mid-string, is still
recognized as a category facet and both marker occurrences are removed
from the value. -/
theorem facet_marker_containment_witness :
    redirect_ask_search none ["xcategory_exact:ycategory_exact:z"] "en" =
      RedirectOutcome.toCategory
        (slugify (pyReplace "xcategory_exact:ycategory_exact:z" category_facet "")) "en" :=
  (facet_marker_containment "xcategory_exact:ycategory_exact:z" "en").1
    (by decide) (by decide)

/-- Numbering distributes over list append, shifting the start index by
the length of the first part. -/
theorem numberFrom_append (g : String → String) (xs ys : List String) :
    ∀ i, numberFrom g i (xs ++ ys) =
      numberFrom g i xs ++ numberFrom g (i + xs.length) ys := by
  induction xs with
  | nil => intro i; simp [numberFrom]
  | cons x xs ih =>
    intro i
    simp only [List.cons_append, numberFrom, List.length_cons, List.cons.injEq, true_and]
    rw [show i + (xs.length + 1) = i + 1 + xs.length from by omega]
    exact ih (i + 1)

/-- The indices produced by numbering from `i` are exactly
`i, i+1, ..., i+len-1`. -/
theorem numberFrom_fst (g : String → String) (xs : List String) :
    ∀ i, (numberFrom g i xs).map Prod.fst = List.range' i xs.length := by
  induction xs with
  | nil => intro i; simp [numberFrom]
  | cons x xs ih =>
    intro i
    simp [numberFrom, List.range', ih (i + 1)]

/-- Structure theorem for the annotation loop: the returned next index
advances by the number of qualifying anchors, and the footnote list is
exactly the qualifying anchors' destinations in document order, numbered
consecutively from the starting index and resolved against the root
URL. -/
theorem annotateNodes_spec (root : String) (i : Nat) (ns : List HtmlNode) :
    (annotateNodes root i ns).2.1 = i + (anchorHrefs ns).length ∧
    (annotateNodes root i ns).2.2 = numberFrom (resolveUrl root) i (anchorHrefs ns) := by
  induction i, ns using annotateNodes.induct root with
  | case1 i => simp [annotateNodes, anchorHrefs, numberFrom]
  | case2 i s rest ih =>
    simp only [annotateNodes, anchorHrefs]
    exact ih
  | case3 i tag attrs children rest h ihc ihr =>
    simp only [annotateNodes, anchorHrefs, if_pos h]
    constructor
    · rw [ihr.1, ihc.1]
      simp only [List.length_append, List.length_cons, List.length_nil]
      omega
    · rw [ihr.2, ihc.2, ihc.1, numberFrom_append, numberFrom_append]
      simp only [numberFrom, List.length_cons, List.length_nil, List.cons_append,
        List.nil_append, List.length_append]
      rw [show i + (0 + 1) = i + 1 from by omega,
        show i + ((anchorHrefs children).length + 1) =
          i + 1 + (anchorHrefs children).length from by omega]
  | case4 i tag attrs children rest h ihc ihr =>
    simp only [annotateNodes, anchorHrefs, if_neg h]
    constructor
    · rw [ihr.1, ihc.1]
      simp only [List.nil_append, List.length_append]
      omega
    · rw [ihr.2, ihc.2, ihc.1]
      simp only [List.nil_append]
      rw [numberFrom_append]

/-- C1: whenever `annotate_links` succeeds, the footnote list has
exactly one entry per anchor with a present non-empty destination, the
entries carry the anchors' destinations resolved against the default
site's base URL in document order, and their indices are exactly
`1..N`; anchors with a missing or empty destination consume no index. -/
theorem annotate_links_footnotes (root : String) (doc : List HtmlNode)
    (out : List HtmlNode × List (Nat × String))
    (h : annotate_links (some root) doc = Except.ok out) :
    out.2 = numberFrom (resolveUrl root) 1 (anchorHrefs doc) ∧
    out.2.map Prod.fst = List.range' 1 (anchorHrefs doc).length ∧
    out.2.length = (anchorHrefs doc).length := by
  have hout : out = ((annotateNodes root 1 doc).1, (annotateNodes root 1 doc).2.2) := by
    have := (Except.ok.injEq _ _).mp h.symm
    exact this.symm ▸ rfl
  have hspec := annotateNodes_spec root 1 doc
  rw [hout]
  refine ⟨hspec.2, ?_, ?_⟩
  · rw [hspec.2]
    exact numberFrom_fst (resolveUrl root) (anchorHrefs doc) 1
  · rw [hspec.2]
    have : ∀ (g : String → String) (xs : List String) (i : Nat),
        (numberFrom g i xs).length = xs.length := by
      intro g xs
      induction xs with
      | nil => intro i; rfl
      | cons x xs ih => intro i; simp [numberFrom, ih (i + 1)]
    exact this _ _ _

/-- C1 witness: a paragraph with two qualifying anchors (one with a
host-relative and one with a path-relative destination) and one anchor
without a destination yields footnotes numbered 1 and 2 with resolved
URLs; the href-less anchor consumes no index. -/
theorem annotate_links_footnotes_witness :
    ([(1, "https://x.gov/a"), (2, "https://x.gov/b")] : List (Nat × String)) =
      numberFrom (resolveUrl "https://x.gov") 1
        (anchorHrefs [HtmlNode.elem "p" []
          [HtmlNode.elem "a" [("href", "/a")] [HtmlNode.text "x"],
           HtmlNode.elem "a" [] [HtmlNode.text "y"],
           HtmlNode.elem "a" [("href", "b")] []]]) ∧
    ([(1, "https://x.gov/a"), (2, "https://x.gov/b")] : List (Nat × String)).map Prod.fst =
      List.range' 1
        (anchorHrefs [HtmlNode.elem "p" []
          [HtmlNode.elem "a" [("href", "/a")] [HtmlNode.text "x"],
           HtmlNode.elem "a" [] [HtmlNode.text "y"],
           HtmlNode.elem "a" [("href", "b")] []]]).length ∧
    ([(1, "https://x.gov/a"), (2, "https://x.gov/b")] : List (Nat × String)).length =
      (anchorHrefs [HtmlNode.elem "p" []
          [HtmlNode.elem "a" [("href", "/a")] [HtmlNode.text "x"],
           HtmlNode.elem "a" [] [HtmlNode.text "y"],
           HtmlNode.elem "a" [("href", "b")] []]]).length := by
  have hr : annotateNodes "https://x.gov" 1
      [HtmlNode.elem "p" []
        [HtmlNode.elem "a" [("href", "/a")] [HtmlNode.text "x"],
         HtmlNode.elem "a" [] [HtmlNode.text "y"],
         HtmlNode.elem "a" [("href", "b")] []]] =
      ([HtmlNode.elem "p" []
        [HtmlNode.elem "a" [("href", "/a")] [HtmlNode.text "x"],
         HtmlNode.elem "sup" [] [HtmlNode.text "1"],
         HtmlNode.elem "a" [] [HtmlNode.text "y"],
         HtmlNode.elem "a" [("href", "b")] [],
         HtmlNode.elem "sup" [] [HtmlNode.text "2"]]], 3,
       [(1, "https://x.gov/a"), (2, "https://x.gov/b")]) := by
    simp [annotateNodes, hrefTruthy, resolveUrl, pyIn, containsSub]
    exact ⟨by decide, by decide⟩
  have h := annotate_links_footnotes "https://x.gov"
    [HtmlNode.elem "p" []
      [HtmlNode.elem "a" [("href", "/a")] [HtmlNode.text "x"],
       HtmlNode.elem "a" [] [HtmlNode.text "y"],
       HtmlNode.elem "a" [("href", "b")] []]]
    ((annotateNodes "https://x.gov" 1
        [HtmlNode.elem "p" []
          [HtmlNode.elem "a" [("href", "/a")] [HtmlNode.text "x"],
           HtmlNode.elem "a" [] [HtmlNode.text "y"],
           HtmlNode.elem "a" [("href", "b")] []]]).1,
     (annotateNodes "https://x.gov" 1
        [HtmlNode.elem "p" []
          [HtmlNode.elem "a" [("href", "/a")] [HtmlNode.text "x"],
           HtmlNode.elem "a" [] [HtmlNode.text "y"],
           HtmlNode.elem "a" [("href", "b")] []]]).2.2) rfl
  rw [hr] at h
  exact h

/-- C8: `annotate_links` fails exactly when no default site is
configured, with the `RuntimeError` message of the source, and an
error carries no annotated document or footnotes. -/
theorem annotate_links_config_error (site : Option String) (doc : List HtmlNode) :
    ((∃ msg, annotate_links site doc = Except.error msg) ↔ site = none) ∧
    annotate_links none doc = Except.error "no default wagtail site configured" := by
  refine ⟨⟨?_, ?_⟩, rfl⟩
  · rintro ⟨msg, hmsg⟩
    cases site with
    | none => rfl
    | some root => simp [annotate_links] at hmsg
  · rintro rfl
    exact ⟨"no default wagtail site configured", rfl⟩

/-- If no anchor in the forest has a non-empty destination, the
annotation loop leaves the forest unchanged, keeps the index, and emits
no footnotes. -/
theorem annotateNodes_of_no_anchors (root : String) (i : Nat) (ns : List HtmlNode) :
    anchorHrefs ns = [] → annotateNodes root i ns = (ns, i, []) := by
  induction i, ns using annotateNodes.induct root with
  | case1 i => intro _; simp [annotateNodes]
  | case2 i s rest ih =>
    intro h
    simp only [anchorHrefs] at h
    simp [annotateNodes, ih h]
  | case3 i tag attrs children rest h ihc ihr =>
    intro hh
    simp only [anchorHrefs, if_pos h] at hh
    simp at hh
  | case4 i tag attrs children rest h ihc ihr =>
    intro hh
    simp only [anchorHrefs, if_neg h, List.nil_append, List.append_eq_nil] at hh
    have h1 := ihc hh.1
    rw [h1] at ihr
    have h2 := ihr hh.2
    simp only [annotateNodes, if_neg h]
    rw [h1, h2]
    rfl

/-- C9: annotating a document containing zero anchors with a non-empty
destination returns the document unchanged together with an empty
footnote list. -/
theorem annotate_links_no_anchors (root : String) (doc : List HtmlNode)
    (h : anchorHrefs doc = []) :
    annotate_links (some root) doc = Except.ok (doc, []) := by
  simp [annotate_links, annotateNodes_of_no_anchors root 1 doc h]

/-- C9 witness: a paragraph whose only anchor has an empty destination
is returned unchanged with no footnotes. -/
theorem annotate_links_no_anchors_witness :
    annotate_links (some "https://x.gov")
      [HtmlNode.elem "p" [] [HtmlNode.text "hi",
        HtmlNode.elem "a" [("href", "")] [HtmlNode.text "x"]]] =
    Except.ok ([HtmlNode.elem "p" [] [HtmlNode.text "hi",
        HtmlNode.elem "a" [("href", "")] [HtmlNode.text "x"]]], []) :=
  annotate_links_no_anchors "https://x.gov"
    [HtmlNode.elem "p" [] [HtmlNode.text "hi",
      HtmlNode.elem "a" [("href", "")] [HtmlNode.text "x"]]]
    (by simp [anchorHrefs, hrefTruthy])

end AskCfpb
